import Mathlib

/-!
Verification development for the `next_express` project creator
(`next_express.py`), a PyQt wizard that drives external scaffolding tools.
The orchestration core is shallowly embedded here:

* `run_command` / `run_command_log` — the Command Runner (lines 32–76);
* `promptLoop` / `processLine` — the Interactive Responder's per-line prompt
  matching (lines 119–137);
* `ansiSub` — the ANSI escape-sequence stripper (lines 95–105 and 153–169);
* `parsePortE` / `findReady` / `start_dev_server` — the Dev Server Launcher
  (lines 380–411);
* `run` — the Sequencer pipeline of `ProjectSetupThread.run` (lines 194–302).

Child processes are modelled by a `World` record giving each invoked command
its exit code, stderr text and (for the dev server) its output lines.
Python strings are modelled as `String` at the pipeline level and as
`List Char` inside the character-level algorithms (substring search, split,
strip, int parsing), which are written to match Python `in`, `str.split`,
`str.strip` and `int` on ASCII inputs.
-/

namespace NextExpress

/-- Python `needle in haystack` is prefix-at-some-position; the empty needle
is contained in every string. -/
def isPrefixOfL : List Char → List Char → Bool
  | [], _ => true
  | _ :: _, [] => false
  | a :: as, b :: bs => a = b && isPrefixOfL as bs

/-- Substring containment over char lists (Python `in` on `str`). -/
def containsSub (n : List Char) : List Char → Bool
  | [] => n.isEmpty
  | c :: t => isPrefixOfL n (c :: t) || containsSub n t

/-- Python `needle in haystack` on `String`. -/
def pyContains (needle haystack : String) : Bool :=
  containsSub needle.toList haystack.toList

/-- Default whitespace stripped by Python `str.strip()` (ASCII fragment). -/
def isPySpace (c : Char) : Bool :=
  c = ' ' || c = '\t' || c = '\n' || c = '\x0d' || c = '\x0b' || c = '\x0c'

/-- Python `str.strip()` with no arguments (ASCII fragment). -/
def pyStrip (s : List Char) : List Char :=
  ((s.dropWhile isPySpace).reverse.dropWhile isPySpace).reverse

/-- If `pre` is a prefix of the second argument, return the remainder. -/
def stripPrefixL : List Char → List Char → Option (List Char)
  | [], s => some s
  | _ :: _, [] => none
  | a :: as, b :: bs => if a = b then stripPrefixL as bs else none

/-- Split off everything before the first occurrence of `sep`; the second
component is the text after that occurrence (`none` if `sep` never occurs).
Models one step of Python `str.split(sep)`. -/
def pySplit1 (sep : List Char) : List Char → List Char × Option (List Char)
  | [] => ([], none)
  | c :: rest =>
    match stripPrefixL sep (c :: rest) with
    | some tail => ([], some tail)
    | none =>
      let (pre, r) := pySplit1 sep rest
      (c :: pre, r)

/-- Python `s.split(sep)[1]`: the text between the first and second
occurrence of `sep` (to the end if `sep` occurs once); `none` models the
`IndexError` raised when `sep` does not occur. -/
def splitIndex1 (sep s : List Char) : Option (List Char) :=
  match pySplit1 sep s with
  | (_, none) => none
  | (_, some tail) => some (pySplit1 sep tail).1

/-- Digit run of a Python integer literal after the first digit: underscores
are allowed only singly and between digits. -/
def pyIntTail : List Char → Bool
  | [] => true
  | '_' :: c :: rest => c.isDigit && pyIntTail rest
  | '_' :: [] => false
  | c :: rest => c.isDigit && pyIntTail rest

/-- Numeric value of a digit/underscore run (underscores skipped). -/
def digitsVal (l : List Char) : Nat :=
  (l.filter (fun c => c ≠ '_')).foldl (fun a c => a * 10 + (c.toNat - 48)) 0

/-- Unsigned decimal body accepted by Python `int`. -/
def pyIntBody (l : List Char) : Option Nat :=
  match l with
  | [] => none
  | c :: rest => if c.isDigit && pyIntTail rest then some (digitsVal l) else none

/-- Python `int(s)` on ASCII text: strips whitespace, optional sign, decimal
digits with underscore grouping; `none` models the `ValueError`. -/
def pyInt (s : List Char) : Option Int :=
  match pyStrip s with
  | '+' :: rest => (pyIntBody rest).map (fun n => (n : Int))
  | '-' :: rest => (pyIntBody rest).map (fun n => -(n : Int))
  | t => (pyIntBody t).map (fun n => (n : Int))

/-! ### ANSI escape-sequence stripping (`remove_ansi_escape_sequences`)

The regex removed by `ansi_escape.sub('', text)` is an ESC byte followed
either by a single Fe byte (`0x40`–`0x5A` or `0x5C`–`0x5F`, the class
written `@-Z` and backslash-to-underscore in the source) or by `[`,
parameter bytes (`0x30`–`0x3F`), intermediate bytes (`0x20`–`0x2F`) and one
final byte (`0x40`–`0x7E`).  `re.sub` scans left to right, removing each
leftmost non-overlapping match; the three CSI character classes are
pairwise disjoint, so greedy matching needs no backtracking. -/

def esc : Char := '\x1b'

/-- Fe byte after ESC: `0x40`–`0x5A` or `0x5C`–`0x5F` (`[` excluded). -/
def isFe (c : Char) : Bool :=
  (0x40 ≤ c.toNat && c.toNat ≤ 0x5A) || (0x5C ≤ c.toNat && c.toNat ≤ 0x5F)

/-- CSI parameter byte `0x30`–`0x3F`. -/
def isParamByte (c : Char) : Bool := 0x30 ≤ c.toNat && c.toNat ≤ 0x3F

/-- CSI intermediate byte `0x20`–`0x2F`. -/
def isInterByte (c : Char) : Bool := 0x20 ≤ c.toNat && c.toNat ≤ 0x2F

/-- CSI final byte `0x40`–`0x7E`. -/
def isFinalByte (c : Char) : Bool := 0x40 ≤ c.toNat && c.toNat ≤ 0x7E

/-- Match parameter bytes, intermediate bytes and a final byte at the head
of `s`; return the remainder after the match. -/
def matchCsiTail (s : List Char) : Option (List Char) :=
  match (s.dropWhile isParamByte).dropWhile isInterByte with
  | [] => none
  | c :: rest => if isFinalByte c then some rest else none

theorem dropWhile_length_le (p : Char → Bool) (l : List Char) :
    (l.dropWhile p).length ≤ l.length := by
  induction l with
  | nil => simp
  | cons c t ih =>
    by_cases h : p c = true
    · rw [List.dropWhile_cons_of_pos h]
      simp only [List.length_cons]
      omega
    · rw [List.dropWhile_cons_of_neg h]

theorem matchCsiTail_length {s t : List Char} (h : matchCsiTail s = some t) :
    t.length < s.length := by
  unfold matchCsiTail at h
  split at h
  · exact absurd h (by simp)
  · rename_i c rest heq
    split at h
    · have h1 : ((s.dropWhile isParamByte).dropWhile isInterByte).length ≤ s.length :=
        le_trans (dropWhile_length_le _ _) (dropWhile_length_le _ _)
      rw [heq] at h1
      simp only [List.length_cons] at h1
      cases h
      omega
    · exact absurd h (by simp)

/-- Model of `ansi_escape.sub('', ·)` on char lists: scan left to right; at each ESC
try the Fe alternative, then the CSI alternative; on a match drop it and
continue after it, otherwise emit the character and continue at the next
position. -/
def ansiSub : List Char → List Char
  | [] => []
  | [c] => [c]
  | c :: d :: rest2 =>
    if c = esc then
      if isFe d then ansiSub rest2
      else if d = '[' then
        if hsome : (matchCsiTail rest2).isSome then
          ansiSub ((matchCsiTail rest2).get hsome)
        else c :: ansiSub (d :: rest2)
      else c :: ansiSub (d :: rest2)
    else c :: ansiSub (d :: rest2)
termination_by s => s.length
decreasing_by
  all_goals simp only [List.length_cons]
  · omega
  · have := matchCsiTail_length (Option.some_get hsome).symm
    omega
  · omega
  · omega
  · omega

/-- Model of `remove_ansi_escape_sequences` (source lines 153–169). -/
def remove_ansi_escape_sequences (s : String) : String :=
  String.mk (ansiSub s.toList)

/-! ### Command Runner (`run_command`, source lines 32–76)

The child's stdout and stderr are two separate pipes.  The read loop
streams stdout line by line, logging each line stripped; after the process
exits, `communicate()` returns the (already-drained) stdout remainder and
the whole stderr text, and a non-empty stderr is logged as one block.  A
non-zero exit code raises `Exception(f"{description} failed: {stderr}")`;
otherwise the exit code (necessarily 0) is returned. -/

/-- Phase at which a log event is emitted: while the child still runs, or
after it has exited. -/
inductive LogPhase
  | streaming
  | afterExit
deriving DecidableEq, Repr

/-- The streaming read loop: each stdout line is logged, stripped, while the
process runs. -/
def streamLoop : List String → List (LogPhase × String)
  | [] => []
  | l :: ls => (LogPhase.streaming, String.mk (pyStrip l.toList)) :: streamLoop ls

/-- Log trace of `run_command` given the child's stdout lines and stderr
text: stdout lines during streaming, then stderr (if non-empty) as a single
post-exit event.  (The initial `Running: {description}` header is elided.) -/
def run_command_log (outLines : List String) (stderrText : String) :
    List (LogPhase × String) :=
  streamLoop outLines ++
    (if stderrText = "" then [] else [(LogPhase.afterExit, stderrText)])

/-- Result of `run_command` given the child's exit code and stderr: the
raised exception's message on non-zero exit, the exit code otherwise. -/
def run_command (returncode : Nat) (stderrText : String) (description : String) :
    Except String Nat :=
  if returncode ≠ 0 then .error (description ++ " failed: " ++ stderrText)
  else .ok returncode

/-! ### Interactive Responder (`run_command_with_input`, source lines 78–151)

Each stdout line is stripped, cleaned of ANSI escapes, logged and appended
(plus a newline) to an accumulation buffer; then the response table is
scanned in iteration order, and the first key contained in the clean line
has its response written and flushed, the buffer reset, and the scan
stopped by `break`. -/

/-- The `for prompt, response in responses.items()` loop with its `break`:
responses written for one clean line. -/
def promptLoop (table : List (String × String)) (line : String) : List String :=
  match table with
  | [] => []
  | (p, r) :: rest => if pyContains p line then [r] else promptLoop rest line

/-- Effect of one clean output line on the responder: the responses written
and the new accumulation buffer (the buffer first grows by the line plus a
newline, and is reset exactly when some prompt matched). -/
def processLine (table : List (String × String)) (buffer clean : String) :
    List String × String :=
  let buffer1 := buffer ++ clean ++ "\n"
  match promptLoop table clean with
  | [] => ([], buffer1)
  | rs => (rs, "")

/-! ### Dev Server Launcher (`start_dev_server`, source lines 380–411)

The readiness loop reads output lines (for up to 30 s of wall clock, which
we model by the finite list of lines produced in time); a line containing
`"ready - started server on"` or `"Local:"` triggers
`int(output.split("localhost:")[1].strip())`, which raises `IndexError`
when the line has no `localhost:` and `ValueError` when the text after it
is not an integer literal; neither exception is caught inside
`start_dev_server`.  On success the loop breaks, and after a 2 s settle
delay (not modelled) the browser is opened at `http://localhost:{port}`
when requested. -/

def readyMarker1 : String := "ready - started server on"

def readyMarker2 : String := "Local:"

/-- The readiness test applied to each raw output line. -/
def isReadyLine (l : String) : Bool :=
  pyContains readyMarker1 l || pyContains readyMarker2 l

/-- Model of `int(output.split("localhost:")[1].strip())` with its two failure
modes; error messages follow the Python exception texts. -/
def parsePortE (line : String) : Except String Int :=
  match splitIndex1 "localhost:".toList line.toList with
  | none => .error "list index out of range"
  | some t =>
    match pyInt (pyStrip t) with
    | some n => .ok n
    | none =>
      .error ("invalid literal for int() with base 10: " ++ String.mk (pyStrip t))

/-- The readiness loop over the available output lines: `ok none` is the
soft timeout path, `ok (some p)` the ready path, `error` an uncaught parse
exception. -/
def findReady : List String → Except String (Option Int)
  | [] => .ok none
  | l :: ls =>
    if isReadyLine l then
      match parsePortE l with
      | .ok p => .ok (some p)
      | .error e => .error e
    else findReady ls

/-- Observable outcome of `start_dev_server`: the reported ready port (if
any) and the browser URLs requested. -/
structure DevResult where
  readyPort : Option Int
  browserOpens : List String
deriving DecidableEq, Repr

/-- Model of `start_dev_server(project_path)` given the dev server's output lines
and the `open_browser` flag. -/
def start_dev_server (lines : List String) (openBrowser : Bool) :
    Except String DevResult :=
  match findReady lines with
  | .error e => .error e
  | .ok none => .ok ⟨none, []⟩
  | .ok (some p) =>
    .ok ⟨some p, if openBrowser then ["http://localhost:" ++ toString p] else []⟩

/-! ### Configuration and child-process outcomes

`Config` mirrors the dictionary built in `create_project`
(source lines 715–744).  `World` supplies, for every child process the
pipeline may spawn, its exit code and stderr text (and, for the dev
server, its output lines); it plays the role of the external environment. -/

structure Config where
  project_name : String
  project_path : String
  package_manager : String
  use_typescript : Bool
  use_tailwind : Bool
  use_eslint : Bool
  use_src_dir : Bool
  use_app_router : Bool
  use_turbo : Bool
  custom_import_alias : Bool
  import_alias : String
  use_redux : Bool
  use_axios : Bool
  use_router : Bool
  use_auth : Bool
  use_prisma : Bool
  use_forms : Bool
  use_query : Bool
  init_git : Bool
  build_project : Bool
  additional_deps : Bool
  open_vscode : Bool
  start_dev : Bool
  open_browser : Bool
  ui_style : String
  ui_color : String
  use_css_vars : Bool
  react_compat : String
deriving DecidableEq, Repr

structure World where
  nodeCode : Nat
  npmCode : Nat
  listNextCode : Nat
  listCnaCode : Nat
  listTsCode : Nat
  scaffoldCode : Nat
  scaffoldStderr : String
  shadcnInstallCode : Nat
  shadcnInstallStderr : String
  shadcnInitCode : Nat
  shadcnInitStderr : String
  gitCode : Nat
  gitStderr : String
  buildCode : Nat
  buildStderr : String
  vscodeCode : Nat
  vscodeStderr : String
  devLines : List String
deriving DecidableEq, Repr

/-- Model of `check_dependencies` (source lines 171–192): `node --version`,
`npm --version`, then `npm list -g` for `next`, `create-next-app` and
`typescript`; any non-zero exit makes it return `False` (the raised
exception is caught inside the method). -/
def check_dependencies (w : World) : Bool :=
  w.nodeCode == 0 && w.npmCode == 0 &&
    (w.listNextCode == 0 && w.listCnaCode == 0 && w.listTsCode == 0)

/-- The `create-next-app` argument vector built in `run`
(source lines 207–223): the fixed head ends with `--use-npm`, and when a
custom import alias is configured the vector is extended with
`--import-alias` and the alias value. -/
def create_command (c : Config) : List String :=
  ["npx", "--yes", "create-next-app@latest", c.project_name,
    if c.use_typescript then "--ts" else "--js",
    if c.use_tailwind then "--tailwind" else "--no-tailwind",
    if c.use_eslint then "--eslint" else "--no-eslint",
    if c.use_src_dir then "--src-dir" else "--no-src-dir",
    if c.use_app_router then "--app" else "--pages",
    if c.custom_import_alias then "--import-alias" else "--no-import-alias",
    "--use-npm"] ++
  (if c.custom_import_alias then ["--import-alias", c.import_alias] else [])

/-- Python `chr.lower()` on an ASCII character. -/
def pyLowerChar (c : Char) : Char :=
  if 0x41 ≤ c.toNat ∧ c.toNat ≤ 0x5A then Char.ofNat (c.toNat + 32) else c

/-- Python `str.lower()` (ASCII fragment). -/
def pyLower (s : String) : String := String.mk (s.toList.map pyLowerChar)

/-- The style-name map of `setup_shadcn_and_utilities`
(source lines 352–363), with `default` as the fallback. -/
def shadcnStyle (c : Config) : String :=
  match ([("Default", "default"), ("New York", "new-york"), ("Zinc", "zinc"),
    ("Slate", "slate"), ("Stone", "stone"),
    ("Gray", "gray")].find? (fun pr => pr.1 = c.ui_style)) with
  | some pr => pr.2
  | none => "default"

/-- The `PromptResponseTable` built in `setup_shadcn_and_utilities`
(source lines 365–370), in dict insertion order. -/
def shadcnResponses (c : Config) : List (String × String) :=
  [("Which style would you like to use?", shadcnStyle c ++ "\n"),
    ("Which color would you like to use as the base color?",
      pyLower c.ui_color ++ "\n"),
    ("Would you like to use CSS variables for theming?",
      if c.use_css_vars then "yes\n" else "no\n"),
    ("How would you like to proceed?", c.react_compat ++ "\n")]

/-- Model of `setup_shadcn_and_utilities` (source lines 323–378): an
`npm install --save-dev` of the base dependencies via `run_command`, then
the interactive `npx shadcn@latest init` via `run_command_with_input`
(whose exit-code contract equals `run_command`'s); the local `except`
re-raises the same exception. -/
def setup_shadcn_and_utilities (w : World) : Except String Nat :=
  match run_command w.shadcnInstallCode w.shadcnInstallStderr
      "Installing dependencies" with
  | .error e => .error e
  | .ok _ =>
    run_command w.shadcnInitCode w.shadcnInitStderr "Initializing shadcn/ui"

/-! ### The Sequencer (`ProjectSetupThread.run`, source lines 194–302)

The pipeline is a single `try` block: dependency check, scaffold, optional
feature installs, shadcn/ui init, then optional git init, build, VS Code
launch and dev-server start, in that textual order; the first exception
reaches the shared handler, which emits `finished(False, "Error: ...")`.
Note the feature-install step calls `self.install_additional_features`,
a method that does not exist on the class, so reaching step 3 raises
`AttributeError` unconditionally. -/

/-- The eight pipeline steps. -/
inductive Step
  | depCheck
  | scaffold
  | featureInstalls
  | shadcnInit
  | gitInit
  | buildStep
  | openVscode
  | devServer
deriving DecidableEq, Repr

/-- The fixed textual order of the pipeline steps in `run`. -/
def stepOrder : List Step :=
  [Step.depCheck, Step.scaffold, Step.featureInstalls, Step.shadcnInit,
    Step.gitInit, Step.buildStep, Step.openVscode, Step.devServer]

/-- The `any([...])` guard of the feature-install step
(source lines 260–268). -/
def anyFeature (c : Config) : Bool :=
  c.use_redux || c.use_axios || c.use_router || c.use_auth || c.use_prisma ||
    c.use_forms || c.use_query

/-- The message of the `AttributeError` raised by the call to the undefined
`install_additional_features` method (source line 270). -/
def attributeErrorMsg : String :=
  "ProjectSetupThread object has no attribute install_additional_features"

/-- Outcome of `ProjectSetupThread.run`: the steps the pipeline entered, in
execution order, and the `finished` signal's two payloads. -/
structure RunResult where
  steps : List Step
  success : Bool
  message : String
deriving DecidableEq, Repr

/-- Steps 8 (dev server), executed only when `start_dev` is set; a parse
exception escapes `start_dev_server` into the shared handler. -/
def runDevStage (c : Config) (w : World) : List Step × Option String :=
  if c.start_dev then
    match start_dev_server w.devLines c.open_browser with
    | .error e => ([Step.devServer], some e)
    | .ok _ => ([Step.devServer], none)
  else ([], none)

/-- Step 7 (VS Code launch) and later. -/
def runVscodeStage (c : Config) (w : World) : List Step × Option String :=
  if c.open_vscode then
    match run_command w.vscodeCode w.vscodeStderr "Opening VS Code" with
    | .error e => ([Step.openVscode], some e)
    | .ok _ =>
      let (ss, r) := runDevStage c w
      (Step.openVscode :: ss, r)
  else runDevStage c w

/-- Step 6 (build) and later. -/
def runBuildStage (c : Config) (w : World) : List Step × Option String :=
  if c.build_project then
    match run_command w.buildCode w.buildStderr "Building project" with
    | .error e => ([Step.buildStep], some e)
    | .ok _ =>
      let (ss, r) := runVscodeStage c w
      (Step.buildStep :: ss, r)
  else runVscodeStage c w

/-- Step 5 (git init) and later. -/
def runGitStage (c : Config) (w : World) : List Step × Option String :=
  if c.init_git then
    match run_command w.gitCode w.gitStderr "Initializing Git" with
    | .error e => ([Step.gitInit], some e)
    | .ok _ =>
      let (ss, r) := runBuildStage c w
      (Step.gitInit :: ss, r)
  else runBuildStage c w

/-- Model of `ProjectSetupThread.run` (source lines 194–302): the fixed pipeline,
aborted by the first failure, whose exception message reaches the
`finished` signal prefixed with `Error: `. -/
def run (c : Config) (w : World) : RunResult :=
  if check_dependencies w = false then
    ⟨[Step.depCheck], false,
      "Error: Required dependencies not found. Please run setup.py first"⟩
  else if w.scaffoldCode ≠ 0 then
    ⟨[Step.depCheck, Step.scaffold], false,
      "Error: Project creation failed: " ++ w.scaffoldStderr⟩
  else if anyFeature c then
    ⟨[Step.depCheck, Step.scaffold, Step.featureInstalls], false,
      "Error: " ++ attributeErrorMsg⟩
  else
    match setup_shadcn_and_utilities w with
    | .error e =>
      ⟨[Step.depCheck, Step.scaffold, Step.shadcnInit], false, "Error: " ++ e⟩
    | .ok _ =>
      let (ss, r) := runGitStage c w
      match r with
      | some e =>
        ⟨[Step.depCheck, Step.scaffold, Step.shadcnInit] ++ ss, false,
          "Error: " ++ e⟩
      | none =>
        ⟨[Step.depCheck, Step.scaffold, Step.shadcnInit] ++ ss, true,
          "Project created successfully!"⟩


/-! ### Concrete fixtures used by witnesses and counterexamples -/

/-- A configuration with every optional toggle off (the defaults of the
feature checkboxes, with the post-creation options unticked). -/
def cfgBase : Config where
  project_name := "myapp"
  project_path := "/tmp/projects"
  package_manager := "npm"
  use_typescript := true
  use_tailwind := true
  use_eslint := true
  use_src_dir := true
  use_app_router := true
  use_turbo := false
  custom_import_alias := false
  import_alias := "@/*"
  use_redux := false
  use_axios := false
  use_router := false
  use_auth := false
  use_prisma := false
  use_forms := false
  use_query := false
  init_git := false
  build_project := false
  additional_deps := true
  open_vscode := false
  start_dev := false
  open_browser := false
  ui_style := "Default"
  ui_color := "Neutral"
  use_css_vars := true
  react_compat := "Use --force"

/-- `cfgBase` with the dev-server step enabled. -/
def cfgDev : Config := { cfgBase with start_dev := true }

/-- `cfgBase` with a custom import alias configured. -/
def cfgAlias : Config := { cfgBase with custom_import_alias := true }

/-- An environment in which every child process succeeds and the dev server
prints nothing before the timeout. -/
def worldOk : World where
  nodeCode := 0
  npmCode := 0
  listNextCode := 0
  listCnaCode := 0
  listTsCode := 0
  scaffoldCode := 0
  scaffoldStderr := ""
  shadcnInstallCode := 0
  shadcnInstallStderr := ""
  shadcnInitCode := 0
  shadcnInitStderr := ""
  gitCode := 0
  gitStderr := ""
  buildCode := 0
  buildStderr := ""
  vscodeCode := 0
  vscodeStderr := ""
  devLines := []

/-- `worldOk` with a scaffold child exiting with code 1. -/
def worldScaffoldFail : World :=
  { worldOk with scaffoldCode := 1, scaffoldStderr := "boom" }

/-- `worldOk` with a dev server printing a ready line whose port text has a
trailing slash. -/
def worldDevBadPort : World :=
  { worldOk with devLines := ["Local: http://localhost:3001/"] }

/-- `cfgBase` with the git-init step enabled. -/
def cfgGit : Config := { cfgBase with init_git := true }

/-- `cfgBase` with the build step enabled. -/
def cfgBuild : Config := { cfgBase with build_project := true }

/-- `cfgBase` with the editor-launch step enabled. -/
def cfgVscode : Config := { cfgBase with open_vscode := true }

/-- `worldOk` with the shadcn dependency install exiting with code 1. -/
def worldInstallFail : World :=
  { worldOk with shadcnInstallCode := 1, shadcnInstallStderr := "conflict" }

/-- `worldOk` with the shadcn init child exiting with code 1. -/
def worldInitFail : World :=
  { worldOk with shadcnInitCode := 1, shadcnInitStderr := "prompt failure" }

/-- `worldOk` with the git-init child exiting with code 1. -/
def worldGitFail : World :=
  { worldOk with gitCode := 1, gitStderr := "git not found" }

/-- `worldOk` with the build child exiting with code 1. -/
def worldBuildFail : World :=
  { worldOk with buildCode := 1, buildStderr := "type error" }

/-- `worldOk` with the editor-launch child exiting with code 1. -/
def worldVscodeFail : World :=
  { worldOk with vscodeCode := 1, vscodeStderr := "code not found" }

/-! ## Helper lemmas -/

theorem ansiSub_nil : ansiSub [] = [] := by
  unfold ansiSub
  rfl

theorem ansiSub_singleton (c : Char) : ansiSub [c] = [c] := by
  unfold ansiSub
  rfl

theorem ansiSub_fe {d : Char} (rest2 : List Char) (hd : isFe d = true) :
    ansiSub (esc :: d :: rest2) = ansiSub rest2 := by
  conv_lhs => rw [ansiSub.eq_def]
  simp [hd]

theorem ansiSub_csi_some {rest2 tail : List Char}
    (h : matchCsiTail rest2 = some tail) :
    ansiSub (esc :: '[' :: rest2) = ansiSub tail := by
  have hfe : isFe '[' = false := by decide
  conv_lhs => rw [ansiSub.eq_def]
  simp [hfe, h]

theorem ansiSub_csi_none {rest2 : List Char} (h : matchCsiTail rest2 = none) :
    ansiSub (esc :: '[' :: rest2) = esc :: ansiSub ('[' :: rest2) := by
  have hfe : isFe '[' = false := by decide
  conv_lhs => rw [ansiSub.eq_def]
  simp [hfe, h]

theorem ansiSub_esc_noAlt {d : Char} (rest2 : List Char) (hd : isFe d = false)
    (hd2 : d ≠ '[') :
    ansiSub (esc :: d :: rest2) = esc :: ansiSub (d :: rest2) := by
  conv_lhs => rw [ansiSub.eq_def]
  simp [hd, hd2]

theorem ansiSub_notEsc {c : Char} (rest : List Char) (hc : c ≠ esc) :
    ansiSub (c :: rest) = c :: ansiSub (rest) := by
  cases rest with
  | nil => rw [ansiSub_singleton, ansiSub_nil]
  | cons d r2 =>
    conv_lhs => rw [ansiSub.eq_def]
    simp [hc]

/-- Stripping is the identity on lists without the ESC character. -/
theorem ansiSub_clean (s : List Char) (h : esc ∉ s) : ansiSub s = s := by
  induction s with
  | nil => exact ansiSub_nil
  | cons c rest ih =>
    have hc : c ≠ esc := by
      intro he
      exact h (he ▸ List.mem_cons_self c rest)
    rw [ansiSub_notEsc rest hc]
    have := ih (fun hm => h (List.mem_cons_of_mem c hm))
    rw [this]

/-- The streaming loop is a map over the stdout lines. -/
theorem streamLoop_eq_map (ls : List String) :
    streamLoop ls =
      ls.map (fun l => (LogPhase.streaming, String.mk (pyStrip l.toList))) := by
  induction ls with
  | nil => rfl
  | cons l t ih => simp [streamLoop, ih]

/-- Lines without a ready marker are skipped by the readiness loop. -/
theorem findReady_append (pre rest : List String)
    (h : ∀ l ∈ pre, isReadyLine l = false) :
    findReady (pre ++ rest) = findReady rest := by
  induction pre with
  | nil => rfl
  | cons l t ih =>
    have hl : isReadyLine l = false := h l (List.mem_cons_self l t)
    simp only [List.cons_append, findReady, hl]
    simp only [Bool.false_eq_true, if_false]
    exact ih (fun x hx => h x (List.mem_cons_of_mem l hx))

/-- The dev-server stage only ever contributes the dev-server step. -/
theorem runDevStage_fst (c : Config) (w : World) :
    (runDevStage c w).1.Sublist [Step.devServer] := by
  unfold runDevStage
  split
  · split <;> simp
  · simp

/-- The VS Code stage contributes steps in pipeline order. -/
theorem runVscodeStage_fst (c : Config) (w : World) :
    (runVscodeStage c w).1.Sublist [Step.openVscode, Step.devServer] := by
  unfold runVscodeStage
  split
  · split
    · simp
    · rcases hd : runDevStage c w with ⟨ss, r⟩
      have h1 : ss.Sublist [Step.devServer] := by
        have := runDevStage_fst c w
        rw [hd] at this
        exact this
      simpa using List.Sublist.cons₂ Step.openVscode h1
  · exact (runDevStage_fst c w).trans (List.Sublist.cons Step.openVscode (List.Sublist.refl _))

/-- The build stage contributes steps in pipeline order. -/
theorem runBuildStage_fst (c : Config) (w : World) :
    (runBuildStage c w).1.Sublist [Step.buildStep, Step.openVscode, Step.devServer] := by
  unfold runBuildStage
  split
  · split
    · simp
    · rcases hd : runVscodeStage c w with ⟨ss, r⟩
      have h1 : ss.Sublist [Step.openVscode, Step.devServer] := by
        have := runVscodeStage_fst c w
        rw [hd] at this
        exact this
      simpa using List.Sublist.cons₂ Step.buildStep h1
  · exact (runVscodeStage_fst c w).trans (List.Sublist.cons Step.buildStep (List.Sublist.refl _))

/-- The git stage contributes steps in pipeline order. -/
theorem runGitStage_fst (c : Config) (w : World) :
    (runGitStage c w).1.Sublist
      [Step.gitInit, Step.buildStep, Step.openVscode, Step.devServer] := by
  unfold runGitStage
  split
  · split
    · simp
    · rcases hd : runBuildStage c w with ⟨ss, r⟩
      have h1 : ss.Sublist [Step.buildStep, Step.openVscode, Step.devServer] := by
        have := runBuildStage_fst c w
        rw [hd] at this
        exact this
      simpa using List.Sublist.cons₂ Step.gitInit h1
  · exact (runBuildStage_fst c w).trans (List.Sublist.cons Step.gitInit (List.Sublist.refl _))

/-- With all optional post-creation toggles off, the four optional stages
contribute no step and no failure. -/
theorem runGitStage_all_off (c : Config) (w : World) (hg : c.init_git = false)
    (hb : c.build_project = false) (hv : c.open_vscode = false)
    (hs : c.start_dev = false) :
    runGitStage c w = ([], none) := by
  unfold runGitStage runBuildStage runVscodeStage runDevStage
  simp [hg, hb, hv, hs]

/-- When steps 1–4 succeed and an optional stage fails with message `e`,
the run reports that failure with the stage trace appended. -/
theorem run_stage_failure (c : Config) (w : World)
    (hdep : check_dependencies w = true) (hsc : w.scaffoldCode = 0)
    (hf : anyFeature c = false) (hi1 : w.shadcnInstallCode = 0)
    (hi2 : w.shadcnInitCode = 0) {ss : List Step} {e : String}
    (hstage : runGitStage c w = (ss, some e)) :
    run c w = ⟨[Step.depCheck, Step.scaffold, Step.shadcnInit] ++ ss, false,
      "Error: " ++ e⟩ := by
  have hshad : setup_shadcn_and_utilities w = .ok 0 := by
    simp [setup_shadcn_and_utilities, run_command, hi1, hi2]
  unfold run
  rw [hdep, hsc, hf, hshad, hstage]
  simp


/-- The prompt loop writes at most one response per line. -/
theorem promptLoop_length (table : List (String × String)) (line : String) :
    (promptLoop table line).length ≤ 1 := by
  induction table with
  | nil => simp [promptLoop]
  | cons q qs ih =>
    rcases q with ⟨q1, q2⟩
    simp only [promptLoop]
    split
    · simp
    · exact ih

/-- The first key contained in the line, in table order, is answered. -/
theorem promptLoop_first (line p r : String) (pre post : List (String × String))
    (hpre : ∀ q ∈ pre, pyContains q.1 line = false)
    (hp : pyContains p line = true) :
    promptLoop (pre ++ (p, r) :: post) line = [r] := by
  induction pre with
  | nil => simp [promptLoop, hp]
  | cons q qs ih =>
    rcases q with ⟨q1, q2⟩
    have hq : pyContains q1 line = false := hpre (q1, q2) (List.mem_cons_self _ _)
    simp only [List.cons_append, promptLoop, hq]
    simp only [Bool.false_eq_true, if_false]
    exact ih (fun x hx => hpre x (List.mem_cons_of_mem _ hx))

/-! ## Claims -/

/-- C1: for every configuration and every environment, the steps the
Sequencer executes form a sublist of the fixed order dependency check,
scaffold, feature installs, shadcn/ui init, git init, build, editor
launch, dev server; no configuration can reorder or interleave them. -/
theorem C1_pipeline_step_order (c : Config) (w : World) :
    (run c w).steps.Sublist stepOrder := by
  unfold run
  split
  · decide
  · split
    · exact (by decide :
        List.Sublist [Step.depCheck, Step.scaffold] stepOrder)
    · split
      · decide
      · split
        · exact (by decide :
            List.Sublist [Step.depCheck, Step.scaffold, Step.shadcnInit] stepOrder)
        · rcases hg : runGitStage c w with ⟨ss, r⟩
          have hss : ss.Sublist
              [Step.gitInit, Step.buildStep, Step.openVscode, Step.devServer] := by
            have := runGitStage_fst c w
            rw [hg] at this
            exact this
          have hmain : ([Step.depCheck, Step.scaffold, Step.shadcnInit] ++ ss).Sublist
              stepOrder := by
            rw [show stepOrder =
              [Step.depCheck, Step.scaffold, Step.featureInstalls, Step.shadcnInit] ++
                [Step.gitInit, Step.buildStep, Step.openVscode, Step.devServer] from rfl]
            exact List.Sublist.append (by decide) hss
          cases r <;> simpa using hmain

/-- C2: every pipeline step whose child process exits with a non-zero
code aborts the run immediately after that step: the remaining steps
never execute, and a single failure result is reported whose message
carries the failing step's description and the child stderr; no rollback
step exists in the model or the code.  The cases are the six steps that
check a child exit code: scaffold (reported as `Project creation
failed`), the two shadcn/ui children (`Installing dependencies`,
`Initializing shadcn/ui`), git init (`Initializing Git`), build
(`Building project`) and editor launch (`Opening VS Code`).  The
feature-install step spawns no child (the method it calls does not
exist), and the dev-server step never consults an exit code (its failure
mode is C9). -/
theorem C2_step_failure_aborts (c : Config) (w : World) :
    (check_dependencies w = true → w.scaffoldCode ≠ 0 →
      run c w = ⟨[Step.depCheck, Step.scaffold], false,
        "Error: Project creation failed: " ++ w.scaffoldStderr⟩) ∧
    (check_dependencies w = true → w.scaffoldCode = 0 → anyFeature c = false →
      w.shadcnInstallCode ≠ 0 →
      run c w = ⟨[Step.depCheck, Step.scaffold, Step.shadcnInit], false,
        "Error: Installing dependencies failed: " ++ w.shadcnInstallStderr⟩) ∧
    (check_dependencies w = true → w.scaffoldCode = 0 → anyFeature c = false →
      w.shadcnInstallCode = 0 → w.shadcnInitCode ≠ 0 →
      run c w = ⟨[Step.depCheck, Step.scaffold, Step.shadcnInit], false,
        "Error: Initializing shadcn/ui failed: " ++ w.shadcnInitStderr⟩) ∧
    (check_dependencies w = true → w.scaffoldCode = 0 → anyFeature c = false →
      w.shadcnInstallCode = 0 → w.shadcnInitCode = 0 →
      c.init_git = true → w.gitCode ≠ 0 →
      run c w = ⟨[Step.depCheck, Step.scaffold, Step.shadcnInit, Step.gitInit],
        false, "Error: Initializing Git failed: " ++ w.gitStderr⟩) ∧
    (check_dependencies w = true → w.scaffoldCode = 0 → anyFeature c = false →
      w.shadcnInstallCode = 0 → w.shadcnInitCode = 0 →
      (c.init_git = true → w.gitCode = 0) →
      c.build_project = true → w.buildCode ≠ 0 →
      run c w = ⟨[Step.depCheck, Step.scaffold, Step.shadcnInit] ++
          (if c.init_git then [Step.gitInit] else []) ++ [Step.buildStep],
        false, "Error: Building project failed: " ++ w.buildStderr⟩) ∧
    (check_dependencies w = true → w.scaffoldCode = 0 → anyFeature c = false →
      w.shadcnInstallCode = 0 → w.shadcnInitCode = 0 →
      (c.init_git = true → w.gitCode = 0) →
      (c.build_project = true → w.buildCode = 0) →
      c.open_vscode = true → w.vscodeCode ≠ 0 →
      run c w = ⟨[Step.depCheck, Step.scaffold, Step.shadcnInit] ++
          (if c.init_git then [Step.gitInit] else []) ++
          (if c.build_project then [Step.buildStep] else []) ++
          [Step.openVscode],
        false, "Error: Opening VS Code failed: " ++ w.vscodeStderr⟩) := by
  refine ⟨?_, ?_, ?_, ?_, ?_, ?_⟩
  · intro h1 h2
    unfold run
    rw [h1]
    simp [h2]
  · intro hdep hsc hf hic
    have hsh : setup_shadcn_and_utilities w =
        .error ("Installing dependencies failed: " ++ w.shadcnInstallStderr) := by
      simp [setup_shadcn_and_utilities, run_command, hic]
    unfold run
    rw [hdep, hsc, hf, hsh]
    simp
    rw [← String.append_assoc]
    rfl
  · intro hdep hsc hf hi1 hic
    have hsh : setup_shadcn_and_utilities w =
        .error ("Initializing shadcn/ui failed: " ++ w.shadcnInitStderr) := by
      simp [setup_shadcn_and_utilities, run_command, hi1, hic]
    unfold run
    rw [hdep, hsc, hf, hsh]
    simp
    rw [← String.append_assoc]
    rfl
  · intro hdep hsc hf hi1 hi2 hgt hgc
    have hstage : runGitStage c w =
        ([Step.gitInit], some ("Initializing Git failed: " ++ w.gitStderr)) := by
      unfold runGitStage
      simp [hgt, run_command, hgc]
    exact run_stage_failure c w hdep hsc hf hi1 hi2 hstage
  · intro hdep hsc hf hi1 hi2 hgs hbt hbc
    have hstage : runGitStage c w =
        ((if c.init_git then [Step.gitInit] else []) ++ [Step.buildStep],
          some ("Building project failed: " ++ w.buildStderr)) := by
      cases hg : c.init_git with
      | false =>
        unfold runGitStage runBuildStage
        simp [hg, hbt, run_command, hbc]
      | true =>
        unfold runGitStage runBuildStage
        simp [hg, hgs hg, hbt, run_command, hbc]
    exact run_stage_failure c w hdep hsc hf hi1 hi2 hstage
  · intro hdep hsc hf hi1 hi2 hgs hbs hvt hvc
    have hstage : runGitStage c w =
        ((if c.init_git then [Step.gitInit] else []) ++
          (if c.build_project then [Step.buildStep] else []) ++
          [Step.openVscode],
          some ("Opening VS Code failed: " ++ w.vscodeStderr)) := by
      cases hg : c.init_git with
      | false =>
        cases hb : c.build_project with
        | false =>
          unfold runGitStage runBuildStage runVscodeStage
          simp [hg, hb, hvt, run_command, hvc]
        | true =>
          unfold runGitStage runBuildStage runVscodeStage
          simp [hg, hb, hbs hb, hvt, run_command, hvc]
      | true =>
        cases hb : c.build_project with
        | false =>
          unfold runGitStage runBuildStage runVscodeStage
          simp [hg, hgs hg, hb, hvt, run_command, hvc]
        | true =>
          unfold runGitStage runBuildStage runVscodeStage
          simp [hg, hgs hg, hb, hbs hb, hvt, run_command, hvc]
    exact run_stage_failure c w hdep hsc hf hi1 hi2 hstage

/-- C2 witness: each of the six exit-code-checked steps failing with code
1 in an otherwise healthy environment, at concrete configurations that
enable the failing step. -/
theorem C2_step_failure_aborts_witness :
    run cfgBase worldScaffoldFail = ⟨[Step.depCheck, Step.scaffold], false,
      "Error: Project creation failed: boom"⟩ ∧
    run cfgBase worldInstallFail =
      ⟨[Step.depCheck, Step.scaffold, Step.shadcnInit], false,
        "Error: Installing dependencies failed: conflict"⟩ ∧
    run cfgBase worldInitFail =
      ⟨[Step.depCheck, Step.scaffold, Step.shadcnInit], false,
        "Error: Initializing shadcn/ui failed: prompt failure"⟩ ∧
    run cfgGit worldGitFail =
      ⟨[Step.depCheck, Step.scaffold, Step.shadcnInit, Step.gitInit], false,
        "Error: Initializing Git failed: git not found"⟩ ∧
    run cfgBuild worldBuildFail =
      ⟨[Step.depCheck, Step.scaffold, Step.shadcnInit, Step.buildStep], false,
        "Error: Building project failed: type error"⟩ ∧
    run cfgVscode worldVscodeFail =
      ⟨[Step.depCheck, Step.scaffold, Step.shadcnInit, Step.openVscode], false,
        "Error: Opening VS Code failed: code not found"⟩ := by
  refine ⟨?_, ?_, ?_, ?_, ?_, ?_⟩
  · rw [(C2_step_failure_aborts cfgBase worldScaffoldFail).1
      (by decide) (by decide)]
    decide
  · rw [(C2_step_failure_aborts cfgBase worldInstallFail).2.1
      (by decide) (by decide) (by decide) (by decide)]
    decide
  · rw [(C2_step_failure_aborts cfgBase worldInitFail).2.2.1
      (by decide) (by decide) (by decide) (by decide) (by decide)]
    decide
  · rw [(C2_step_failure_aborts cfgGit worldGitFail).2.2.2.1
      (by decide) (by decide) (by decide) (by decide) (by decide) (by decide)
      (by decide)]
    decide
  · rw [(C2_step_failure_aborts cfgBuild worldBuildFail).2.2.2.2.1
      (by decide) (by decide) (by decide) (by decide) (by decide)
      (by intro h; decide) (by decide) (by decide)]
    decide
  · rw [(C2_step_failure_aborts cfgVscode worldVscodeFail).2.2.2.2.2
      (by decide) (by decide) (by decide) (by decide) (by decide)
      (by intro h; decide) (by intro h; decide) (by decide) (by decide)]
    decide

/-- C3: per cleaned output line, the responder writes at most one
response, and it is exactly the response of the first key (in table
order) whose text is contained in the line; the accumulation buffer is
cleared on a match. -/
theorem C3_first_prompt_match_wins (table : List (String × String)) (line : String) :
    (promptLoop table line).length ≤ 1 ∧
    (∀ pre p r post, table = pre ++ (p, r) :: post →
      (∀ q ∈ pre, pyContains q.1 line = false) →
      pyContains p line = true →
      promptLoop table line = [r] ∧
      ∀ b, processLine table b line = ([r], "")) := by
  refine ⟨promptLoop_length table line, ?_⟩
  intro pre p r post htab hpre hp
  subst htab
  have hfirst := promptLoop_first line p r pre post hpre hp
  refine ⟨hfirst, ?_⟩
  intro b
  simp [processLine, hfirst]

/-- C3 witness: the shadcn/ui prompt table of the default configuration
against a line showing the base-color prompt: only the second table entry
matches and its response is written; the buffer is cleared. -/
theorem C3_first_prompt_match_wins_witness :
    promptLoop (shadcnResponses cfgBase)
        "- Which color would you like to use as the base color? neutral" =
      ["neutral\n"] ∧
    processLine (shadcnResponses cfgBase) "buffered text"
        "- Which color would you like to use as the base color? neutral" =
      (["neutral\n"], "") := by
  have h := (C3_first_prompt_match_wins (shadcnResponses cfgBase)
      "- Which color would you like to use as the base color? neutral").2
    [("Which style would you like to use?", "default\n")]
    "Which color would you like to use as the base color?" "neutral\n"
    [("Would you like to use CSS variables for theming?", "yes\n"),
      ("How would you like to proceed?", "Use --force\n")]
    (by decide) (by decide) (by decide)
  exact ⟨h.1, h.2 "buffered text"⟩

/-- C4: the Command Runner returns the exit code only when it is 0; every
non-zero exit produces the failure message built from the step description
and the child stderr, so a normal return implies exit code 0. -/
theorem C4_run_command_exit_contract (code : Nat) (err desc : String) :
    (∀ n, run_command code err desc = .ok n → n = 0 ∧ code = 0) ∧
    (code ≠ 0 → run_command code err desc = .error (desc ++ " failed: " ++ err)) := by
  unfold run_command
  by_cases h : code = 0
  · subst h
    constructor
    · intro n hn
      simp only [ne_eq, not_true_eq_false, reduceIte] at hn
      simp at hn
      exact ⟨hn.symm, rfl⟩
    · intro hc
      exact absurd rfl hc
  · constructor
    · intro n hn
      rw [if_pos h] at hn
      exact absurd hn (by simp)
    · intro _
      rw [if_pos h]

/-- C4 witness: exit code 0 returns 0; exit code 1 with stderr `boom` on
the build step produces the build failure message. -/
theorem C4_run_command_exit_contract_witness :
    (0 = 0 ∧ 0 = 0) ∧
    run_command 1 "boom" "Building project" =
      .error "Building project failed: boom" := by
  constructor
  · exact (C4_run_command_exit_contract 0 "" "Building project").1 0 rfl
  · rw [(C4_run_command_exit_contract 1 "boom" "Building project").2 (by decide)]
    exact congrArg Except.error (by decide)

/-- C5: with every optional toggle false, the executed steps are always
among dependency check, scaffold and shadcn/ui init, and when those three
all succeed the trace is exactly those three steps and the run reports
success. -/
theorem C5_minimal_config_steps (c : Config) (w : World)
    (h1 : c.use_redux = false) (h2 : c.use_axios = false)
    (h3 : c.use_router = false) (h4 : c.use_auth = false)
    (h5 : c.use_prisma = false) (h6 : c.use_forms = false)
    (h7 : c.use_query = false) (hg : c.init_git = false)
    (hb : c.build_project = false) (hv : c.open_vscode = false)
    (hs : c.start_dev = false) (hob : c.open_browser = false) :
    (run c w).steps.Sublist [Step.depCheck, Step.scaffold, Step.shadcnInit] ∧
    (check_dependencies w = true → w.scaffoldCode = 0 →
      w.shadcnInstallCode = 0 → w.shadcnInitCode = 0 →
      run c w = ⟨[Step.depCheck, Step.scaffold, Step.shadcnInit], true,
        "Project created successfully!"⟩) := by
  have hf : anyFeature c = false := by
    simp [anyFeature, h1, h2, h3, h4, h5, h6, h7]
  have hstage := runGitStage_all_off c w hg hb hv hs
  constructor
  · unfold run
    split
    · decide
    · split
      · exact (by decide : List.Sublist [Step.depCheck, Step.scaffold]
          [Step.depCheck, Step.scaffold, Step.shadcnInit])
      · rw [hf]
        simp only [Bool.false_eq_true, if_false]
        split
        · exact (by decide : List.Sublist [Step.depCheck, Step.scaffold, Step.shadcnInit]
            [Step.depCheck, Step.scaffold, Step.shadcnInit])
        · rw [hstage]
          simp
  · intro hdep hsc hi1 hi2
    have hshad : setup_shadcn_and_utilities w = .ok 0 := by
      simp [setup_shadcn_and_utilities, run_command, hi1, hi2]
    unfold run
    rw [hdep, hsc, hf, hshad, hstage]
    simp

/-- C5 witness: the all-toggles-off configuration in the all-success
environment runs exactly steps 1, 2 and 4. -/
theorem C5_minimal_config_steps_witness :
    run cfgBase worldOk = ⟨[Step.depCheck, Step.scaffold, Step.shadcnInit], true,
      "Project created successfully!"⟩ :=
  (C5_minimal_config_steps cfgBase worldOk (by decide) (by decide) (by decide)
    (by decide) (by decide) (by decide) (by decide) (by decide) (by decide)
    (by decide) (by decide) (by decide)).2 (by decide) (by decide) (by decide)
    (by decide)


/-- C6 counterexample: stripping is not idempotent on all inputs.  On the
five-character input ESC ESC `[` `m` `A`, the first pass removes only the
CSI sequence starting at the second ESC, leaving ESC `A`, which a second
pass removes as a freshly formed Fe escape. -/
theorem C6_strip_not_idempotent_cex :
    remove_ansi_escape_sequences
        (remove_ansi_escape_sequences (String.mk [esc, esc, '[', 'm', 'A'])) ≠
      remove_ansi_escape_sequences (String.mk [esc, esc, '[', 'm', 'A']) := by
  have h1 : ansiSub [esc, esc, '[', 'm', 'A'] = [esc, 'A'] := by
    rw [ansiSub_esc_noAlt _ (by decide) (by decide),
      @ansiSub_csi_some ['m', 'A'] ['A'] (by decide), ansiSub_singleton]
  have h2 : ansiSub [esc, 'A'] = [] := by
    rw [ansiSub_fe _ (by decide), ansiSub_nil]
  unfold remove_ansi_escape_sequences
  rw [show (String.mk [esc, esc, '[', 'm', 'A']).toList =
    [esc, esc, '[', 'm', 'A'] from rfl, h1]
  rw [show (String.mk [esc, 'A']).toList = [esc, 'A'] from rfl, h2]
  decide

/-- C6 amended: stripping a line that contains no ESC character returns it
unchanged (so the strip is idempotent on inputs whose stripped form is
ESC-free, though not on every input). -/
theorem C6_strip_clean_identity (s : String) (h : esc ∉ s.toList) :
    remove_ansi_escape_sequences s = s := by
  unfold remove_ansi_escape_sequences
  rw [ansiSub_clean s.toList h]
  cases s
  rfl

/-- C6 witness: a plain log line is left unchanged. -/
theorem C6_strip_clean_identity_witness :
    remove_ansi_escape_sequences "Installing dependencies..." =
      "Installing dependencies..." :=
  C6_strip_clean_identity "Installing dependencies..." (by decide)

/-- C7: a ready-marker line whose text after `localhost:` strips to `3001`
makes the Launcher report port 3001 and, when browser opening is enabled,
request exactly `http://localhost:3001`. -/
theorem C7_dev_server_port_3001 (pre post : List String) (line : String)
    (t : List Char) (b : Bool)
    (hpre : ∀ l ∈ pre, isReadyLine l = false)
    (hline : isReadyLine line = true)
    (hsplit : splitIndex1 "localhost:".toList line.toList = some t)
    (hport : pyInt (pyStrip t) = some 3001) :
    start_dev_server (pre ++ line :: post) b =
      .ok ⟨some 3001, if b then ["http://localhost:3001"] else []⟩ := by
  have hparse : parsePortE line = .ok 3001 := by
    unfold parsePortE
    rw [hsplit]
    simp [hport]
  have hurl : ("http://localhost:" ++ toString (3001 : Int) : String) =
      "http://localhost:3001" := by decide
  unfold start_dev_server
  rw [findReady_append pre (line :: post) hpre]
  simp only [findReady, hline, if_true, hparse]
  cases b <;> simp [hurl]

/-- C7 witness: the classic next dev ready line with port 3001, browser
opening enabled. -/
theorem C7_dev_server_port_3001_witness :
    start_dev_server ["ready - started server on localhost:3001"] true =
      .ok ⟨some 3001, ["http://localhost:3001"]⟩ := by
  have h := C7_dev_server_port_3001 [] []
    "ready - started server on localhost:3001" "3001".toList true
    (by intro l hl; cases hl) (by decide) (by decide) (by decide)
  simpa using h

/-- C8 counterexample: the Command Runner does not merge stderr into the
streamed output; with stdout line `hello` and stderr `boom`, the stderr
text is delivered only after the process exits, never during streaming. -/
theorem C8_stderr_after_exit_cex :
    (LogPhase.afterExit, "boom") ∈ run_command_log ["hello\n"] "boom" ∧
    (LogPhase.streaming, "boom") ∉ run_command_log ["hello\n"] "boom" := by
  decide

/-- C8 amended: the Command Runner streams each stdout line (stripped)
immediately while the child runs, in order; stderr is captured on a
separate pipe and is logged as a single block only after the child exits
(empty stderr is not logged). -/
theorem C8_stdout_streamed_stderr_after_exit (outLines : List String)
    (err : String) :
    (run_command_log outLines err).filter (fun ev => ev.1 == LogPhase.streaming) =
      outLines.map (fun l => (LogPhase.streaming, String.mk (pyStrip l.toList))) ∧
    (run_command_log outLines err).filter (fun ev => ev.1 == LogPhase.afterExit) =
      (if err = "" then [] else [(LogPhase.afterExit, err)]) := by
  unfold run_command_log
  rw [streamLoop_eq_map, List.filter_append, List.filter_append]
  constructor
  · have h1 : ∀ ls : List String, (ls.map
        (fun l => (LogPhase.streaming, String.mk (pyStrip l.toList)))).filter
          (fun ev => ev.1 == LogPhase.streaming) =
        ls.map (fun l => (LogPhase.streaming, String.mk (pyStrip l.toList))) := by
      intro ls
      induction ls with
      | nil => rfl
      | cons a tl ih => simp [List.filter_cons, ih]
    rw [h1]
    split <;> simp
  · have h1 : ∀ ls : List String, (ls.map
        (fun l => (LogPhase.streaming, String.mk (pyStrip l.toList)))).filter
          (fun ev => ev.1 == LogPhase.afterExit) = [] := by
      intro ls
      induction ls with
      | nil => rfl
      | cons a tl ih => simp [List.filter_cons, ih]
    rw [h1]
    split <;> simp

/-- C9: on a ready-marker line whose port text does not parse (no
`localhost:` at all, or a non-integer remainder such as a trailing slash),
the parse exception escapes `start_dev_server` — the soft timeout path is
bypassed — and the whole pipeline reports failure with that exception
text. -/
theorem C9_marker_parse_exception (pre post : List String) (line e : String)
    (b : Bool) (hpre : ∀ l ∈ pre, isReadyLine l = false)
    (hline : isReadyLine line = true)
    (herr : parsePortE line = .error e) :
    start_dev_server (pre ++ line :: post) b = .error e ∧
    (∀ c w, anyFeature c = false → c.init_git = false → c.build_project = false →
      c.open_vscode = false → c.start_dev = true →
      check_dependencies w = true → w.scaffoldCode = 0 →
      w.shadcnInstallCode = 0 → w.shadcnInitCode = 0 →
      w.devLines = pre ++ line :: post →
      run c w =
        ⟨[Step.depCheck, Step.scaffold, Step.shadcnInit, Step.devServer], false,
          "Error: " ++ e⟩) := by
  have hsAll : ∀ fb, start_dev_server (pre ++ line :: post) fb = .error e := by
    intro fb
    unfold start_dev_server
    rw [findReady_append pre (line :: post) hpre]
    simp only [findReady, hline, if_true, herr]
  refine ⟨hsAll b, ?_⟩
  intro c w hf hg hb hv hsd hdep hsc hi1 hi2 hdl
  have hshad : setup_shadcn_and_utilities w = .ok 0 := by
    simp [setup_shadcn_and_utilities, run_command, hi1, hi2]
  have hstage : runGitStage c w = ([Step.devServer], some e) := by
    unfold runGitStage runBuildStage runVscodeStage runDevStage
    rw [hdl]
    simp [hg, hb, hv, hsd, hsAll c.open_browser]
  unfold run
  rw [hdep, hsc, hf, hshad, hstage]
  simp

/-- C9 witness: the modern next dev ready line carries a URL with a
trailing slash, so `int("3001/")` raises and the pipeline fails. -/
theorem C9_marker_parse_exception_witness :
    run cfgDev worldDevBadPort =
      ⟨[Step.depCheck, Step.scaffold, Step.shadcnInit, Step.devServer], false,
        "Error: invalid literal for int() with base 10: 3001/"⟩ := by
  have h := (C9_marker_parse_exception [] [] "Local: http://localhost:3001/"
      "invalid literal for int() with base 10: 3001/" true
      (by intro l hl; cases hl) (by decide) (by rfl)).2
    cfgDev worldDevBadPort (by decide) (by decide) (by decide) (by decide)
    (by decide) (by decide) (by decide) (by decide) (by decide) (by decide)
  rw [h]
  decide

/-- C10 counterexample: the scaffold argument vector does not always end
with `--use-npm`: with a custom import alias configured it ends with the
alias value instead (`--use-npm` still occurs earlier). -/
theorem C10_use_npm_not_last_cex :
    (create_command cfgAlias).getLast? ≠ some "--use-npm" ∧
    (create_command cfgAlias).getLast? = some "@/*" := by
  decide

/-- C10 amended: two configurations differing only in the package-manager
field produce identical pipeline behaviour and identical scaffold argument
vectors — the field is never read — and the scaffold vector always
contains `--use-npm` (though it is last only when no custom import alias
is configured). -/
theorem C10_package_manager_noninterference (c : Config) (pm : String)
    (w : World) :
    run { c with package_manager := pm } w = run c w ∧
    create_command { c with package_manager := pm } = create_command c ∧
    "--use-npm" ∈ create_command c := by
  refine ⟨?_, ?_, ?_⟩
  · cases c
    rfl
  · cases c
    rfl
  · simp [create_command]

end NextExpress
